import Mathlib

/-!
Shallow embedding of the IWEdraft bilingual glossary scripts.

The repository has four small scripts, all variations of one design:
an in-memory `dictionary` loaded from `words.json`, a document-level click
listener that looks up `e.target.dataset.id` in the dictionary, and a
presenter that writes the entry's fields into a fixed container.

  * `src/js/app.js` (same code as `src/unnamed/part_001`): sidebar variant
    with word selection and aligned sentence-pair highlighting.
  * `src/unnamed/part_000`: popup variants with a close button
    (the second one spells the definition fields `definition_en` /
    `definition_pl`).
  * `src/unnamed/part_002`: popup variant whose template substitutes the
    placeholder dash via `|| '-'` and omits a missing example.

JavaScript field access on an absent property yields `undefined`, so entry
fields and `dataset` attributes are modelled as `Option String`:
`none` is `undefined`.  Template interpolation of `undefined` produces the
literal text "undefined" (`jsStr`), `x || '-'` produces the dash exactly
when the value is `undefined` or the empty string (`jsOr`), and strict
equality `===` between two string-or-undefined values is `Option.beq`.
-/

namespace IWE

/-- JS template interpolation of a string-or-undefined value:
`${undefined}` renders the literal text "undefined". -/
def jsStr : Option String → String
  | some s => s
  | none => "undefined"

/-- JS `v || d` for a string-or-undefined `v`: `undefined` and the empty
string are falsy, any other string is returned unchanged. -/
def jsOr : Option String → String → String
  | some s, d => if s = "" then d else s
  | none, d => d

/-- JS truthiness of a string-or-undefined value: `undefined` and `""` are
falsy. -/
def jsTruthy : Option String → Bool
  | some s => !(s == "")
  | none => false

/-- One dictionary record, as consumed by `app.js`, `part_001` and
`part_002` (fields `id`, `word`, `pos`, `en_definition`, `pl_definition`,
`pl_translation`, `example`).  Every field may be absent on a given JS
object, hence `Option String`. -/
structure Entry where
  id : Option String
  word : Option String
  pos : Option String
  en_definition : Option String
  pl_definition : Option String
  pl_translation : Option String
  «example» : Option String
deriving DecidableEq, Repr

/-- `dictionary.find(w => w.id === ident)` — linear scan returning the
first entry whose `id` is strictly equal to the identifier, or
`undefined` (`none`) when no entry matches. -/
def lookup (dictionary : List Entry) (ident : Option String) : Option Entry :=
  dictionary.find? (fun w => w.id == ident)

/-- `let dictionary = [];` — the dictionary before the `fetch` of
`words.json` resolves (and forever, if the fetch fails or rejects). -/
def initialDictionary : List Entry := []

/-! ## Sidebar variant (`src/js/app.js`, identical to `src/unnamed/part_001`)

The DOM structure around a click target, as far as the handler inspects
it: `e.target.classList.contains("word")`, `e.target.dataset.id`,
`e.target.closest(".english-sentence")`, the sentence's
`dataset.sentence` and `closest(".paragraph")`, and the paragraph's
`querySelector('.polish-sentence[data-sentence="…"]')` (first match in
document order).  Elements are identified by a numeric id `eid`; the
mutable class markers "selected" and "sentence-highlight" are modelled as
the lists of element ids currently carrying them. -/

/-- A `.polish-sentence` element inside a paragraph: its identity and its
`data-sentence` attribute (absent attribute is `none`). -/
structure PlSentence where
  eid : Nat
  dataSentence : Option String
deriving DecidableEq, Repr

/-- A `.paragraph` element: its `.polish-sentence` descendants in document
order, as searched by `querySelector`. -/
structure Paragraph where
  polishSentences : List PlSentence
deriving DecidableEq, Repr

/-- An `.english-sentence` element: its identity, its `data-sentence`
attribute, and its closest `.paragraph` ancestor, if any. -/
structure EnSentence where
  eid : Nat
  dataSentence : Option String
  closestParagraph : Option Paragraph
deriving DecidableEq, Repr

/-- A click event's target element: its identity, whether its classList
contains "word", its `data-id` attribute, and its closest
`.english-sentence` ancestor, if any. -/
structure Target where
  eid : Nat
  isWord : Bool
  dataId : Option String
  closestEnglishSentence : Option EnSentence
deriving DecidableEq, Repr

/-- `classList.remove(c)` on element `i`, viewed on the set of elements
carrying class `c`. -/
def removeClass (s : List Nat) (i : Nat) : List Nat :=
  s.filter (fun j => j ≠ i)

/-- `classList.add(c)` on element `i`, viewed on the set of elements
carrying class `c` (a classList is a set: adding a present token is a
no-op). -/
def addClass (s : List Nat) (i : Nat) : List Nat :=
  if i ∈ s then s else i :: s

/-- `if (reg) reg.classList.remove(c)` — remove the class from the element
held in a register, when the register is non-null. -/
def removeClassOpt (s : List Nat) : Option Nat → List Nat
  | some i => removeClass s i
  | none => s

/-- `paragraph.querySelector('.polish-sentence[data-sentence="n"]')`:
first `.polish-sentence` descendant whose `data-sentence` attribute is
present and equals `n`. -/
def findPolish (paragraph : Paragraph) (n : String) : Option PlSentence :=
  paragraph.polishSentences.find? (fun s => s.dataSentence == some n)

/-- The `showSidebar` template of `src/js/app.js` (lines 52–61): the
sidebar content is replaced by this string, each `${…}` interpolated via
`jsStr`. -/
def showSidebar (word : Entry) : String :=
  "\n    <div><strong>Word:</strong> " ++ jsStr word.word
    ++ "</div><br>\n    <div><strong>Part of Speech:</strong> " ++ jsStr word.pos
    ++ "</div><br>\n    <div><strong>EN Definition:</strong> " ++ jsStr word.en_definition
    ++ "</div><br>\n    <div><strong>PL Definition:</strong> " ++ jsStr word.pl_definition
    ++ "</div><br>\n    <div><strong>Translation:</strong> " ++ jsStr word.pl_translation
    ++ "</div><br>\n    <div><strong>Example:</strong> <em>" ++ jsStr word.«example»
    ++ "</em></div>\n  "

/-- The mutable state of the sidebar script: the loaded dictionary, the
three element registers (`selectedWordElement`, `highlightedSentenceEN`,
`highlightedSentencePL`, each `null` or an element), the sets of elements
carrying the "selected" and "sentence-highlight" classes, the sidebar
container's innerHTML, and the sidebar container's "hidden" marker (which
no line of this script ever touches). -/
structure SidebarState where
  dictionary : List Entry
  selectedWordElement : Option Nat
  highlightedSentenceEN : Option Nat
  highlightedSentencePL : Option Nat
  selectedClass : List Nat
  sentenceHighlightClass : List Nat
  sidebarContent : String
  sidebarHidden : Bool
deriving DecidableEq, Repr

/-- Lines 29–44 of `src/js/app.js`: from the already-cleared
"sentence-highlight" set `shc`, highlight the clicked word's enclosing
`.english-sentence` (if any) and the `.polish-sentence` with the same
`data-sentence` in the enclosing `.paragraph` (if any); returns the new
class set and the new values of the two sentence registers.  When a lookup
step fails, the corresponding register keeps its old value (the code only
assigns inside the `if`s). -/
def highlightSentence (st : SidebarState) (shc : List Nat) (e : Target) :
    List Nat × Option Nat × Option Nat :=
  match e.closestEnglishSentence with
  | some sentenceEN =>
    let shc1 := addClass shc sentenceEN.eid
    match sentenceEN.closestParagraph with
    | some paragraph =>
      let sentenceNumber := jsStr sentenceEN.dataSentence
      match findPolish paragraph sentenceNumber with
      | some plSentence =>
          (addClass shc1 plSentence.eid, some sentenceEN.eid, some plSentence.eid)
      | none => (shc1, some sentenceEN.eid, st.highlightedSentencePL)
    | none => (shc1, some sentenceEN.eid, st.highlightedSentencePL)
  | none => (shc, st.highlightedSentenceEN, st.highlightedSentencePL)

/-- The document-level click handler of `src/js/app.js` (lines 15–50),
run on a click whose target is `e`. -/
def clickSidebar (st : SidebarState) (e : Target) : SidebarState :=
  if e.isWord then
    -- Remove previous word highlight, select the clicked element
    let selectedClass :=
      addClass (removeClassOpt st.selectedClass st.selectedWordElement) e.eid
    -- Remove previous sentence highlights
    let shc :=
      removeClassOpt
        (removeClassOpt st.sentenceHighlightClass st.highlightedSentenceEN)
        st.highlightedSentencePL
    -- Highlight sentence containing the word, and its Polish counterpart
    let next := highlightSentence st shc e
    -- Show word info in sidebar
    let sidebarContent :=
      match lookup st.dictionary e.dataId with
      | some wordData => showSidebar wordData
      | none => st.sidebarContent
    { st with
      selectedWordElement := some e.eid
      selectedClass := selectedClass
      sentenceHighlightClass := next.1
      highlightedSentenceEN := next.2.1
      highlightedSentencePL := next.2.2
      sidebarContent := sidebarContent }
  else st

/-- Well-formedness of the class markers relative to the registers: every
element carrying "selected" is the one in `selectedWordElement`, and every
element carrying "sentence-highlight" is one of the two sentence
registers.  This holds of the initial state (all registers null, no
markers) and is preserved by every click. -/
def Inv (st : SidebarState) : Prop :=
  (∀ i ∈ st.selectedClass, st.selectedWordElement = some i) ∧
  (∀ i ∈ st.sentenceHighlightClass,
    st.highlightedSentenceEN = some i ∨ st.highlightedSentencePL = some i)

instance (st : SidebarState) : Decidable (Inv st) := by
  unfold Inv; infer_instance

/-! ## Popup variants (`src/unnamed/part_000`, `src/unnamed/part_002`)

These scripts have no selection or highlight machinery: the click handler
only looks up the id and, on a hit, rewrites `popupContent.innerHTML` and
removes the "hidden" class from the popup; a separate `closeBtn` handler
adds "hidden" back.  The popup's "hidden" marker is a single class on a
single element, modelled as a `Bool`. -/

/-- A dictionary record as consumed by the second script of
`src/unnamed/part_000`, which spells the definition fields
`definition_en` / `definition_pl`. -/
structure EntryDef where
  id : Option String
  word : Option String
  pos : Option String
  definition_en : Option String
  definition_pl : Option String
deriving DecidableEq, Repr

/-- `dictionary.find(w => w.id === ident)` over the `definition_en`
schema. -/
def lookupDef (dictionary : List EntryDef) (ident : Option String) :
    Option EntryDef :=
  dictionary.find? (fun w => w.id == ident)

/-- The mutable state of a popup script: the dictionary, the popup
content element's innerHTML, and whether the popup carries the "hidden"
class. -/
structure PopupState where
  dictionary : List EntryDef
  popupContent : String
  popupHidden : Bool
deriving DecidableEq, Repr

/-- A click event's target as inspected by the popup scripts:
`classList.contains("word")` and `dataset.id`. -/
structure ClickTarget where
  isWord : Bool
  dataId : Option String
deriving DecidableEq, Repr

/-- The innerHTML written by `showPopup` in the second script of
`src/unnamed/part_000` (lines 52–59). -/
def popupHTML (word : EntryDef) : String :=
  "\n    <strong>" ++ jsStr word.word ++ "</strong> <em>" ++ jsStr word.pos
    ++ "</em><br>\n    EN: " ++ jsStr word.definition_en
    ++ "<br>\n    PL: " ++ jsStr word.definition_pl ++ "\n  "

/-- `showPopup`: replace the popup content and remove the "hidden"
class. -/
def showPopup (word : EntryDef) (st : PopupState) : PopupState :=
  { st with popupContent := popupHTML word, popupHidden := false }

/-- The popup scripts' document-level click handler. -/
def clickPopup (st : PopupState) (e : ClickTarget) : PopupState :=
  if e.isWord then
    match lookupDef st.dictionary e.dataId with
    | some wordData => showPopup wordData st
    | none => st
  else st

/-- The `closeBtn` click handler: `popup.classList.add("hidden")`. -/
def closeClick (st : PopupState) : PopupState :=
  { st with popupHidden := true }

/-- The innerHTML written by `showPopup` in `src/unnamed/part_002`
(lines 22–31): missing `pos`, `pl_translation`, `en_definition` and
`pl_definition` fall back to the dash via `|| '-'`, and the example line
is emitted only when `word.example` is truthy. -/
def popupHTML002 (word : Entry) : String :=
  "\n    <strong>" ++ jsStr word.word ++ "</strong> <em>" ++ jsOr word.pos "-"
    ++ "</em><br>  \n    <strong>Translation:</strong> " ++ jsOr word.pl_translation "-"
    ++ "<br>\n    <strong>EN Definition:</strong> " ++ jsOr word.en_definition "-"
    ++ "<br>\n    <strong>PL Definition:</strong> " ++ jsOr word.pl_definition "-"
    ++ "<br>\n    "
    ++ (if jsTruthy word.«example» then
          "<strong>Example:</strong> " ++ jsStr word.«example»
        else "")
    ++ "\n  "

/-! ## Concrete fixtures used by witnesses and counterexamples -/

/-- The "appreciate" entry of the specification's scenario, in the
`en_definition` schema. -/
def appreciateEntry : Entry :=
  { id := some "appreciate"
    word := some "appreciate"
    pos := some "verb"
    en_definition := some "to recognize the value of something"
    pl_definition := some "doceniać"
    pl_translation := none
    «example» := none }

/-- The "appreciate" entry in the `definition_en` schema of the popup
script. -/
def appreciateEntryDef : EntryDef :=
  { id := some "appreciate"
    word := some "appreciate"
    pos := some "verb"
    definition_en := some "to recognize the value of something"
    definition_pl := some "doceniać" }

/-- An entry whose optional `pos` and `example` fields are absent. -/
def bareEntry : Entry :=
  { id := some "run"
    word := some "run"
    pos := none
    en_definition := some "to move fast"
    pl_definition := some "biegać"
    pl_translation := some "biec"
    «example» := none }

/-- A sidebar state whose container is hidden, whose dictionary holds only
the "appreciate" entry, and whose markers and registers are empty. -/
def hiddenSidebarState : SidebarState :=
  { dictionary := [appreciateEntry]
    selectedWordElement := none
    highlightedSentenceEN := none
    highlightedSentencePL := none
    selectedClass := []
    sentenceHighlightClass := []
    sidebarContent := ""
    sidebarHidden := true }

/-- A word element carrying `data-id="appreciate"`, outside any
sentence. -/
def appreciateTarget : Target :=
  { eid := 7
    isWord := true
    dataId := some "appreciate"
    closestEnglishSentence := none }

/-- A `.polish-sentence` with `data-sentence="3"`. -/
def polishThree : PlSentence := { eid := 21, dataSentence := some "3" }

/-- A paragraph holding two Polish sentences, indices "1" and "3". -/
def paragraphFixture : Paragraph :=
  { polishSentences := [{ eid := 22, dataSentence := some "1" }, polishThree] }

/-- An `.english-sentence` with `data-sentence="3"` inside
`paragraphFixture`. -/
def englishThree : EnSentence :=
  { eid := 20, dataSentence := some "3", closestParagraph := some paragraphFixture }

/-- A word element inside `englishThree`, with an id absent from the
dictionary. -/
def sentenceTarget : Target :=
  { eid := 5
    isWord := true
    dataId := some "zebra"
    closestEnglishSentence := some englishThree }

/-- A sidebar state with a previous selection (element 3) and a previous
highlighted pair (elements 10 and 11), agreeing with the registers. -/
def busySidebarState : SidebarState :=
  { dictionary := [appreciateEntry]
    selectedWordElement := some 3
    highlightedSentenceEN := some 10
    highlightedSentencePL := some 11
    selectedClass := [3]
    sentenceHighlightClass := [10, 11]
    sidebarContent := "old"
    sidebarHidden := false }

/-- A sidebar state whose dictionary holds only `bareEntry` (missing
`pos` and `example`). -/
def missingPosState : SidebarState :=
  { dictionary := [bareEntry]
    selectedWordElement := none
    highlightedSentenceEN := none
    highlightedSentencePL := none
    selectedClass := []
    sentenceHighlightClass := []
    sidebarContent := ""
    sidebarHidden := false }

/-- A word element carrying `data-id="run"`, outside any sentence. -/
def runTarget : Target :=
  { eid := 4
    isWord := true
    dataId := some "run"
    closestEnglishSentence := none }

/-- A clicked element that does not carry the "word" class. -/
def nonWordTarget : Target :=
  { eid := 99, isWord := false, dataId := none, closestEnglishSentence := none }

/-- A popup state whose popup is hidden and whose dictionary holds only
the "appreciate" entry. -/
def hiddenPopupState : PopupState :=
  { dictionary := [appreciateEntryDef], popupContent := "", popupHidden := true }

/-- A popup-variant click on a word with `data-id="appreciate"`. -/
def appreciateClick : ClickTarget := { isWord := true, dataId := some "appreciate" }

/-- A popup-variant click on a word whose id is absent from the
dictionary. -/
def absentClick : ClickTarget := { isWord := true, dataId := some "zebra" }

/-- A popup-variant click on a non-word element. -/
def nonWordClick : ClickTarget := { isWord := false, dataId := none }

/-! ## Helper lemmas -/

theorem mem_removeClassOpt {s : List Nat} {r : Option Nat} {i : Nat}
    (h : i ∈ removeClassOpt s r) : i ∈ s ∧ r ≠ some i := by
  cases r with
  | none => exact ⟨h, by simp⟩
  | some k =>
    simp only [removeClassOpt, removeClass, List.mem_filter,
      decide_eq_true_eq] at h
    exact ⟨h.1, fun hs => h.2 (Option.some_inj.mp hs).symm⟩

theorem removeClassOpt_eq_nil {s : List Nat} {a : Option Nat}
    (h : ∀ i ∈ s, a = some i) : removeClassOpt s a = [] := by
  rw [List.eq_nil_iff_forall_not_mem]
  intro i hi
  obtain ⟨hmem, hne⟩ := mem_removeClassOpt hi
  exact hne (h i hmem)

theorem removeClassOpt2_eq_nil {s : List Nat} {a b : Option Nat}
    (h : ∀ i ∈ s, a = some i ∨ b = some i) :
    removeClassOpt (removeClassOpt s a) b = [] := by
  rw [List.eq_nil_iff_forall_not_mem]
  intro i hi
  obtain ⟨hi1, hb⟩ := mem_removeClassOpt hi
  obtain ⟨hi2, ha⟩ := mem_removeClassOpt hi1
  rcases h i hi2 with h1 | h1
  · exact ha h1
  · exact hb h1

theorem mem_addClass {s : List Nat} {i j : Nat} :
    j ∈ addClass s i ↔ j = i ∨ j ∈ s := by
  unfold addClass
  by_cases h : i ∈ s
  · rw [if_pos h]
    constructor
    · exact fun hj => Or.inr hj
    · rintro (rfl | hj)
      · exact h
      · exact hj
  · rw [if_neg h]
    exact List.mem_cons

/-- Projection of the handler for a word click: the "selected" class set
after the click, when the old markers agree with the register. -/
theorem clickSidebar_selectedClass (st : SidebarState) (e : Target)
    (hw : e.isWord = true)
    (h1 : ∀ i ∈ st.selectedClass, st.selectedWordElement = some i) :
    (clickSidebar st e).selectedClass = [e.eid] := by
  simp only [clickSidebar, hw, if_true]
  rw [removeClassOpt_eq_nil h1]
  simp [addClass]

/-- The sentence step keeps every new "sentence-highlight" marker inside
the pair of registers it produces, starting from the cleared set. -/
theorem highlightSentence_inv (st : SidebarState) (e : Target) :
    ∀ i ∈ (highlightSentence st [] e).1,
      (highlightSentence st [] e).2.1 = some i ∨
      (highlightSentence st [] e).2.2 = some i := by
  intro i hi
  unfold highlightSentence at hi ⊢
  cases hen : e.closestEnglishSentence with
  | none => simp [hen] at hi
  | some en =>
    cases hp : en.closestParagraph with
    | none =>
      simp only [hen, hp] at hi ⊢
      rcases mem_addClass.mp hi with rfl | h
      · exact Or.inl rfl
      · simp at h
    | some paragraph =>
      cases hpl : findPolish paragraph (jsStr en.dataSentence) with
      | none =>
        simp only [hen, hp, hpl] at hi ⊢
        rcases mem_addClass.mp hi with rfl | h
        · exact Or.inl rfl
        · simp at h
      | some pl =>
        simp only [hen, hp, hpl] at hi ⊢
        rcases mem_addClass.mp hi with rfl | h
        · exact Or.inr rfl
        · rcases mem_addClass.mp h with rfl | h2
          · exact Or.inl rfl
          · simp at h2

/-- Every click preserves the class/register well-formedness. -/
theorem Inv_clickSidebar (st : SidebarState) (e : Target) (h : Inv st) :
    Inv (clickSidebar st e) := by
  obtain ⟨h1, h2⟩ := h
  by_cases hw : e.isWord
  · constructor
    · intro i hi
      rw [clickSidebar_selectedClass st e hw h1] at hi
      simp only [clickSidebar, hw, if_true]
      simp only [List.mem_singleton] at hi
      subst hi
      rfl
    · intro i hi
      simp only [clickSidebar, hw, if_true] at hi ⊢
      rw [removeClassOpt2_eq_nil h2] at hi ⊢
      exact highlightSentence_inv st e i hi
  · simp only [Bool.not_eq_true] at hw
    simp only [clickSidebar, hw, Bool.false_eq_true, if_false]
    exact ⟨h1, h2⟩

/-! ## Claims -/

/-- C1: `lookup` returns the first entry (in sequence order) whose `id`
equals the identifier; when no entry matches it returns "not found"
(`none`). -/
theorem C1_lookup_first_match (d : List Entry) (ident : Option String) :
    (∀ e, lookup d ident = some e →
      e.id = ident ∧
        ∃ pre suf, d = pre ++ e :: suf ∧ ∀ x ∈ pre, x.id ≠ ident) ∧
    (lookup d ident = none ↔ ∀ e ∈ d, e.id ≠ ident) := by
  constructor
  · intro e he
    induction d with
    | nil => simp [lookup, List.find?] at he
    | cons a l ih =>
      rw [lookup, List.find?] at he
      by_cases ha : a.id == ident
      · rw [ha] at he
        simp only [Option.some.injEq] at he
        subst he
        exact ⟨by simpa using ha, [], l, rfl, by simp⟩
      · rw [Bool.not_eq_true] at ha
        rw [ha] at he
        obtain ⟨hid, pre, suf, hd, hpre⟩ := ih he
        refine ⟨hid, a :: pre, suf, by simp [hd], ?_⟩
        intro x hx
        rcases List.mem_cons.1 hx with h | h
        · subst h
          simpa using ha
        · exact hpre x h
  · constructor
    · intro hn e he
      have := List.find?_eq_none.1 hn e he
      simpa using this
    · intro h
      apply List.find?_eq_none.2
      intro e he
      simpa using h e he

/-- Witness for C1 on a concrete two-entry dictionary with duplicate ids:
the first entry wins. -/
theorem C1_lookup_first_match_witness :
    ({ id := some "a", word := some "w1", pos := none, en_definition := none,
       pl_definition := none, pl_translation := none, «example» := none : Entry }).id
        = some "a" ∧
      ∃ pre suf,
        [{ id := some "a", word := some "w1", pos := none, en_definition := none,
           pl_definition := none, pl_translation := none, «example» := none : Entry },
         { id := some "a", word := some "w2", pos := none, en_definition := none,
           pl_definition := none, pl_translation := none, «example» := none : Entry }]
          = pre ++
            { id := some "a", word := some "w1", pos := none, en_definition := none,
              pl_definition := none, pl_translation := none, «example» := none : Entry } :: suf ∧
          ∀ x ∈ pre, x.id ≠ some "a" :=
  (C1_lookup_first_match
      [{ id := some "a", word := some "w1", pos := none, en_definition := none,
         pl_definition := none, pl_translation := none, «example» := none },
       { id := some "a", word := some "w2", pos := none, en_definition := none,
         pl_definition := none, pl_translation := none, «example» := none }]
      (some "a")).1 _ rfl

/-- C5: before the asynchronous retrieval completes (or after it fails),
the dictionary is the empty array, and looking up any identifier in it
returns "not found" (`none`) rather than raising an error. -/
theorem C5_empty_dictionary_lookup (ident : Option String) :
    lookup initialDictionary ident = none := rfl

/-- Projections of a word click under the well-formedness of the old
sentence markers: the new "sentence-highlight" set and registers come from
`highlightSentence` applied to the cleared set. -/
theorem clickSidebar_sentence_proj (st : SidebarState) (e : Target)
    (hw : e.isWord = true)
    (h2 : ∀ i ∈ st.sentenceHighlightClass,
      st.highlightedSentenceEN = some i ∨ st.highlightedSentencePL = some i) :
    (clickSidebar st e).sentenceHighlightClass = (highlightSentence st [] e).1 ∧
    (clickSidebar st e).highlightedSentenceEN = (highlightSentence st [] e).2.1 ∧
    (clickSidebar st e).highlightedSentencePL = (highlightSentence st [] e).2.2 := by
  simp only [clickSidebar, hw, if_true]
  rw [removeClassOpt2_eq_nil h2]
  exact ⟨rfl, rfl, rfl⟩

/-- When the clicked word sits in an English sentence whose paragraph has
a matching Polish sentence, the sentence step (from the cleared set)
produces exactly that pair. -/
theorem highlightSentence_pair (st : SidebarState) (e : Target)
    (en : EnSentence) (paragraph : Paragraph) (pl : PlSentence)
    (hen : e.closestEnglishSentence = some en)
    (hp : en.closestParagraph = some paragraph)
    (hpl : findPolish paragraph (jsStr en.dataSentence) = some pl) :
    (highlightSentence st [] e).1 = addClass (addClass [] en.eid) pl.eid ∧
    (highlightSentence st [] e).2.1 = some en.eid ∧
    (highlightSentence st [] e).2.2 = some pl.eid := by
  simp [highlightSentence, hen, hp, hpl]

/-- C4: after any click (under well-formed prior markers), at most one
element carries "selected" — exactly the clicked word, the previous
selection having been cleared — and every "sentence-highlight" marker
belongs to the single register pair. -/
theorem C4_selection_mutual_exclusion (st : SidebarState) (e : Target)
    (h : Inv st) :
    Inv (clickSidebar st e) ∧
    (e.isWord = true → (clickSidebar st e).selectedClass = [e.eid]) :=
  ⟨Inv_clickSidebar st e h,
   fun hw => clickSidebar_selectedClass st e hw h.1⟩

/-- Witness for C4: a click on a word while another word and another
sentence pair are selected. -/
theorem C4_selection_mutual_exclusion_witness :
    Inv (clickSidebar busySidebarState sentenceTarget) ∧
    (sentenceTarget.isWord = true →
      (clickSidebar busySidebarState sentenceTarget).selectedClass
        = [sentenceTarget.eid]) :=
  C4_selection_mutual_exclusion busySidebarState sentenceTarget (by decide)

/-- C7: a word click (under well-formed prior markers) highlights exactly
the enclosing English sentence and the Polish sentence with the same
`data-sentence` in the same paragraph, and nothing else; when the word has
no enclosing English sentence, the highlight set is left cleared.  The
well-formedness is itself preserved, so the same characterization applies
to every subsequent click. -/
theorem C7_sentence_pair_highlight (st : SidebarState) (e : Target)
    (h : Inv st) (hw : e.isWord = true) :
    (∀ en paragraph pl,
      e.closestEnglishSentence = some en →
      en.closestParagraph = some paragraph →
      findPolish paragraph (jsStr en.dataSentence) = some pl →
      en.eid ∈ (clickSidebar st e).sentenceHighlightClass ∧
      pl.eid ∈ (clickSidebar st e).sentenceHighlightClass ∧
      (∀ i ∈ (clickSidebar st e).sentenceHighlightClass,
        i = en.eid ∨ i = pl.eid) ∧
      (clickSidebar st e).highlightedSentenceEN = some en.eid ∧
      (clickSidebar st e).highlightedSentencePL = some pl.eid) ∧
    (e.closestEnglishSentence = none →
      (clickSidebar st e).sentenceHighlightClass = []) ∧
    Inv (clickSidebar st e) := by
  obtain ⟨hshc, hregEN, hregPL⟩ := clickSidebar_sentence_proj st e hw h.2
  refine ⟨?_, ?_, Inv_clickSidebar st e h⟩
  · intro en paragraph pl hen hp hpl
    obtain ⟨hset, hEN, hPL⟩ := highlightSentence_pair st e en paragraph pl hen hp hpl
    rw [hshc, hset, hregEN, hEN, hregPL, hPL]
    refine ⟨?_, ?_, ?_, rfl, rfl⟩
    · exact mem_addClass.mpr (Or.inr (mem_addClass.mpr (Or.inl rfl)))
    · exact mem_addClass.mpr (Or.inl rfl)
    · intro i hi
      rcases mem_addClass.mp hi with rfl | h1
      · exact Or.inr rfl
      · rcases mem_addClass.mp h1 with rfl | h2
        · exact Or.inl rfl
        · simp at h2
  · intro hen
    rw [hshc]
    simp [highlightSentence, hen]

/-- Witness for C7: clicking a word inside English sentence "3" while the
pair (10, 11) is highlighted. -/
theorem C7_sentence_pair_highlight_witness :
    (englishThree.eid
        ∈ (clickSidebar busySidebarState sentenceTarget).sentenceHighlightClass ∧
      polishThree.eid
        ∈ (clickSidebar busySidebarState sentenceTarget).sentenceHighlightClass ∧
      (∀ i ∈ (clickSidebar busySidebarState sentenceTarget).sentenceHighlightClass,
        i = englishThree.eid ∨ i = polishThree.eid) ∧
      (clickSidebar busySidebarState sentenceTarget).highlightedSentenceEN
        = some englishThree.eid ∧
      (clickSidebar busySidebarState sentenceTarget).highlightedSentencePL
        = some polishThree.eid) :=
  (C7_sentence_pair_highlight busySidebarState sentenceTarget (by decide) rfl).1
    englishThree paragraphFixture polishThree rfl rfl rfl

/-- C8: a click whose target does not carry the "word" class leaves the
whole state unchanged, in the sidebar variant and in the popup variant
alike. -/
theorem C8_non_word_click_no_effect (st : SidebarState) (e : Target)
    (pst : PopupState) (pe : ClickTarget)
    (h1 : e.isWord = false) (h2 : pe.isWord = false) :
    clickSidebar st e = st ∧ clickPopup pst pe = pst := by
  constructor
  · simp [clickSidebar, h1]
  · simp [clickPopup, h2]

/-- Witness for C8: a concrete non-word click on concrete states. -/
theorem C8_non_word_click_no_effect_witness :
    clickSidebar busySidebarState nonWordTarget = busySidebarState ∧
    clickPopup hiddenPopupState nonWordClick = hiddenPopupState :=
  C8_non_word_click_no_effect busySidebarState nonWordTarget
    hiddenPopupState nonWordClick rfl rfl

/-- C9: the close control sets the popup's "hidden" marker regardless of
the prior state, and changes nothing else (it reads no state at all). -/
theorem C9_close_hides (st : PopupState) :
    (closeClick st).popupHidden = true ∧
    (closeClick st).popupContent = st.popupContent ∧
    (closeClick st).dictionary = st.dictionary :=
  ⟨rfl, rfl, rfl⟩

/-- C2: on a word click whose identifier misses the dictionary, the
display container is untouched: in the sidebar variant the content and
the "hidden" marker are unchanged, and likewise in the popup variant. -/
theorem C2_lookup_miss_no_presenter_change (st : SidebarState) (e : Target)
    (pst : PopupState) (pe : ClickTarget)
    (hmiss : lookup st.dictionary e.dataId = none)
    (hmissP : lookupDef pst.dictionary pe.dataId = none) :
    (clickSidebar st e).sidebarContent = st.sidebarContent ∧
    (clickSidebar st e).sidebarHidden = st.sidebarHidden ∧
    (clickPopup pst pe).popupContent = pst.popupContent ∧
    (clickPopup pst pe).popupHidden = pst.popupHidden := by
  by_cases hw : e.isWord <;> by_cases hwP : pe.isWord <;>
    simp_all [clickSidebar, clickPopup]

/-- Witness for C2: clicking a word whose id "zebra" is absent. -/
theorem C2_lookup_miss_no_presenter_change_witness :
    (clickSidebar busySidebarState sentenceTarget).sidebarContent
        = busySidebarState.sidebarContent ∧
    (clickSidebar busySidebarState sentenceTarget).sidebarHidden
        = busySidebarState.sidebarHidden ∧
    (clickPopup hiddenPopupState absentClick).popupContent
        = hiddenPopupState.popupContent ∧
    (clickPopup hiddenPopupState absentClick).popupHidden
        = hiddenPopupState.popupHidden :=
  C2_lookup_miss_no_presenter_change busySidebarState sentenceTarget
    hiddenPopupState absentClick rfl rfl

/-- C10: in the sidebar variant a lookup miss still changes the visible
state: the clicked element becomes the unique selected one, the sidebar
content stays as it was, and the enclosing sentence pair (when present) is
highlighted. -/
theorem C10_miss_still_selects (st : SidebarState) (e : Target)
    (h : Inv st) (hw : e.isWord = true)
    (hmiss : lookup st.dictionary e.dataId = none) :
    (clickSidebar st e).selectedWordElement = some e.eid ∧
    (clickSidebar st e).selectedClass = [e.eid] ∧
    (clickSidebar st e).sidebarContent = st.sidebarContent ∧
    (∀ en paragraph pl,
      e.closestEnglishSentence = some en →
      en.closestParagraph = some paragraph →
      findPolish paragraph (jsStr en.dataSentence) = some pl →
      en.eid ∈ (clickSidebar st e).sentenceHighlightClass ∧
      pl.eid ∈ (clickSidebar st e).sentenceHighlightClass) := by
  obtain ⟨hshc, _, _⟩ := clickSidebar_sentence_proj st e hw h.2
  refine ⟨?_, clickSidebar_selectedClass st e hw h.1, ?_, ?_⟩
  · simp [clickSidebar, hw]
  · simp [clickSidebar, hw, hmiss]
  · intro en paragraph pl hen hp hpl
    obtain ⟨hset, _, _⟩ := highlightSentence_pair st e en paragraph pl hen hp hpl
    rw [hshc, hset]
    exact ⟨mem_addClass.mpr (Or.inr (mem_addClass.mpr (Or.inl rfl))),
      mem_addClass.mpr (Or.inl rfl)⟩

set_option maxRecDepth 8192 in
/-- C3 counterexample: the sidebar presenter of `src/js/app.js` has no
placeholder policy — clicking the entry "run", whose optional `pos` is
absent, renders the literal text "undefined" into the display
container. -/
theorem C3_counterexample_renders_undefined :
    lookup missingPosState.dictionary runTarget.dataId = some bareEntry ∧
    bareEntry.pos = none ∧
    ∃ pre post,
      (clickSidebar missingPosState runTarget).sidebarContent
        = pre ++ "undefined" ++ post :=
  ⟨rfl, rfl,
   "\n    <div><strong>Word:</strong> run</div><br>\n    <div><strong>Part of Speech:</strong> ",
   "</div><br>\n    <div><strong>EN Definition:</strong> to move fast</div><br>\n    <div><strong>PL Definition:</strong> biegać</div><br>\n    <div><strong>Translation:</strong> biec</div><br>\n    <div><strong>Example:</strong> <em>undefined</em></div>\n  ",
   by decide⟩

/-- C3 (amended): only the `part_002` popup presenter applies the
placeholder policy: there a missing `pos` renders as the dash and a
missing `example` is omitted entirely (the entry renders exactly as if
`pos` were the dash); the sidebar presenter of `app.js` instead
interpolates the absent value literally. -/
theorem C3_amended_placeholder_rendering (w : Entry)
    (hpos : w.pos = none) (hex : w.«example» = none) :
    popupHTML002 w
      = "\n    <strong>" ++ jsStr w.word ++ "</strong> <em>" ++ "-"
        ++ "</em><br>  \n    <strong>Translation:</strong> " ++ jsOr w.pl_translation "-"
        ++ "<br>\n    <strong>EN Definition:</strong> " ++ jsOr w.en_definition "-"
        ++ "<br>\n    <strong>PL Definition:</strong> " ++ jsOr w.pl_definition "-"
        ++ "<br>\n    " ++ "" ++ "\n  " ∧
    popupHTML002 w = popupHTML002 { w with pos := some "-" } := by
  constructor
  · simp [popupHTML002, hpos, hex, jsOr, jsTruthy]
  · simp [popupHTML002, hpos, hex, jsOr, jsTruthy]

/-- Witness for the amended C3 at the entry "run" (no `pos`, no
`example`). -/
theorem C3_amended_placeholder_rendering_witness :
    popupHTML002 bareEntry
      = "\n    <strong>" ++ jsStr bareEntry.word ++ "</strong> <em>" ++ "-"
        ++ "</em><br>  \n    <strong>Translation:</strong> " ++ jsOr bareEntry.pl_translation "-"
        ++ "<br>\n    <strong>EN Definition:</strong> " ++ jsOr bareEntry.en_definition "-"
        ++ "<br>\n    <strong>PL Definition:</strong> " ++ jsOr bareEntry.pl_definition "-"
        ++ "<br>\n    " ++ "" ++ "\n  " ∧
    popupHTML002 bareEntry = popupHTML002 { bareEntry with pos := some "-" } :=
  C3_amended_placeholder_rendering bareEntry rfl rfl

/-- C6 counterexample: the sidebar variant never removes any "hidden"
marker — clicking "appreciate" renders the entry into the container, yet a
container that starts hidden stays hidden. -/
theorem C6_counterexample_sidebar_stays_hidden :
    lookup hiddenSidebarState.dictionary appreciateTarget.dataId
        = some appreciateEntry ∧
    (clickSidebar hiddenSidebarState appreciateTarget).sidebarContent
        = showSidebar appreciateEntry ∧
    hiddenSidebarState.sidebarHidden = true ∧
    (clickSidebar hiddenSidebarState appreciateTarget).sidebarHidden = true :=
  ⟨rfl, rfl, rfl, rfl⟩

/-- C6 (amended): in the popup variant a found entry's fields replace the
popup content and the "hidden" class is removed; in the sidebar variant a
found entry's fields replace the sidebar content but the container's
hidden state is unchanged (no visibility step exists there). -/
theorem C6_amended_found_entry_render (pst : PopupState) (pe : ClickTarget)
    (w : EntryDef) (hw : pe.isWord = true)
    (hfound : lookupDef pst.dictionary pe.dataId = some w)
    (st : SidebarState) (e : Target) (w2 : Entry)
    (hw2 : e.isWord = true)
    (hfound2 : lookup st.dictionary e.dataId = some w2) :
    (clickPopup pst pe).popupContent = popupHTML w ∧
    (clickPopup pst pe).popupHidden = false ∧
    (clickSidebar st e).sidebarContent = showSidebar w2 ∧
    (clickSidebar st e).sidebarHidden = st.sidebarHidden := by
  refine ⟨?_, ?_, ?_, ?_⟩ <;>
    simp [clickPopup, clickSidebar, hw, hw2, hfound, hfound2, showPopup]

/-- Witness for the amended C6: the "appreciate" scenario — the popup
shows the word, its part of speech and both definitions, and becomes
visible. -/
theorem C6_amended_found_entry_render_witness :
    ((clickPopup hiddenPopupState appreciateClick).popupContent
        = popupHTML appreciateEntryDef ∧
      (clickPopup hiddenPopupState appreciateClick).popupHidden = false ∧
      (clickSidebar hiddenSidebarState appreciateTarget).sidebarContent
        = showSidebar appreciateEntry ∧
      (clickSidebar hiddenSidebarState appreciateTarget).sidebarHidden
        = hiddenSidebarState.sidebarHidden) ∧
    popupHTML appreciateEntryDef
      = "\n    <strong>appreciate</strong> <em>verb</em><br>\n    EN: to recognize the value of something<br>\n    PL: doceniać\n  " :=
  ⟨C6_amended_found_entry_render hiddenPopupState appreciateClick
      appreciateEntryDef rfl rfl hiddenSidebarState appreciateTarget
      appreciateEntry rfl rfl,
   by decide⟩

/-- Witness for C10: clicking the word "zebra" (absent id) inside English
sentence "3". -/
theorem C10_miss_still_selects_witness :
    (clickSidebar busySidebarState sentenceTarget).selectedWordElement
        = some sentenceTarget.eid ∧
    (clickSidebar busySidebarState sentenceTarget).selectedClass
        = [sentenceTarget.eid] ∧
    (clickSidebar busySidebarState sentenceTarget).sidebarContent
        = busySidebarState.sidebarContent ∧
    (∀ en paragraph pl,
      sentenceTarget.closestEnglishSentence = some en →
      en.closestParagraph = some paragraph →
      findPolish paragraph (jsStr en.dataSentence) = some pl →
      en.eid ∈ (clickSidebar busySidebarState sentenceTarget).sentenceHighlightClass ∧
      pl.eid ∈ (clickSidebar busySidebarState sentenceTarget).sentenceHighlightClass) :=
  C10_miss_still_selects busySidebarState sentenceTarget (by decide) rfl rfl

end IWE

